import Mathlib

/-!
Verification of the publishing core of nsyte against its specification.

The definitions below are a shallow embedding of `src/commands/upload.ts`:
`publishToRelays` (relay fan-out publish), the purge loop of `uploadCommand`
(deletion records and authenticated server DELETEs), and the orchestrator's
gating and exit-code logic.  Machine integers do not overflow in the modelled
code paths, so timestamps and counters are `Nat`.  Parts of the repository
that `upload.ts` imports but whose sources are not included (the signer, the
file differ) are modelled from the specification and marked as such in their
doc comments.
-/

/-! ## String utilities

`strIncludes s sub` mirrors JavaScript `s.includes(sub)`. -/

/-- True when the second list is an initial segment of the first. -/
def leadMatch : List Char → List Char → Bool
  | _, [] => true
  | [], _ :: _ => false
  | c :: cs, p :: ps => c == p && leadMatch cs ps

/-- True when the second list occurs contiguously inside the first. -/
def occursIn : List Char → List Char → Bool
  | [], pat => leadMatch [] pat
  | c :: cs, pat => leadMatch (c :: cs) pat || occursIn cs pat

/-- JavaScript `String.prototype.includes`. -/
def strIncludes (s sub : String) : Bool := occursIn s.data sub.data

/-! ## Nostr data model (upload.ts `NostrEventTemplate` / `NostrEvent`) -/

/-- An unsigned record template: kind, creation time, tags, content. -/
structure NostrEventTemplate where
  kind : Nat
  created_at : Nat
  tags : List (List String)
  content : String
deriving DecidableEq, Repr

/-- A signed record as it travels to relays and servers. -/
structure NostrEvent where
  id : String
  pubkey : String
  created_at : Nat
  kind : Nat
  tags : List (List String)
  content : String
  sig : String
deriving DecidableEq, Repr

/-- Modelled from the spec: the signer (src/lib/signer.ts and src/lib/nip46.ts,
not included in the sources) fills in the publisher identity, computes the
canonical identifier over `[0, pubkey, created_at, kind, tags, content]` and
produces the signature, preserving the template's kind, creation time, tags and
content (spec section 4.2).  The identifier and signature computations are
carried as functions of the template. -/
structure SignerModel where
  pubkey : String
  idOf : NostrEventTemplate → String
  sigOf : NostrEventTemplate → String

/-- Modelled from the spec: `sign(template)` returns the completed record
(spec section 4.2); field values other than identity, id and signature are
taken unchanged from the template. -/
def SignerModel.signEvent (s : SignerModel) (t : NostrEventTemplate) : NostrEvent :=
  { id := s.idOf t
    pubkey := s.pubkey
    created_at := t.created_at
    kind := t.kind
    tags := t.tags
    content := t.content
    sig := s.sigOf t }

/-! ## Relay publish model (`publishToRelays`, upload.ts lines 974-1088)

One WebSocket is opened per relay.  The incoming traffic of a relay is
modelled as a list of frames: `Frame.ok` is a parsed JSON array
`["OK", <id>, <bool>, <msg?>]` (the fourth element is absent when the array
has only three entries), and `Frame.other` stands for every other message,
including unparsable ones (the `JSON.parse` failure is caught and ignored). -/

/-- One incoming relay message, as parsed by the `onmessage` handler. -/
inductive Frame
  | ok (eventId : String) (accepted : Bool) (msg : Option String)
  | other
deriving DecidableEq, Repr

/-- Per-relay outcome of one publish attempt. -/
inductive RelayOutcome
  | accepted
  | rateLimited (msg : String)
  | rejected (msg : String)
  | timedOut
  | connectError (detail : String)
deriving DecidableEq, Repr

/-- JavaScript `data[3] || "Unknown relay error"` (upload.ts line 1002): an
empty (falsy) message string is replaced by the default. -/
def defaultedRelayError (m : String) : String :=
  if m = "" then "Unknown relay error" else m

/-- The rate-limit test of upload.ts line 1004: the message contains
`rate-limit` or `noting too much`. -/
def isRateLimitMsg (m : String) : Bool :=
  strIncludes m "rate-limit" || strIncludes m "noting too much"

/-- Classification of an `["OK", id, false, msg]` frame
(upload.ts lines 1001-1016): the defaulted message is classified as
rate-limited or as a plain rejection. -/
def classifyRejection (m : String) : RelayOutcome :=
  if isRateLimitMsg (defaultedRelayError m) then
    RelayOutcome.rateLimited (defaultedRelayError m)
  else
    RelayOutcome.rejected (defaultedRelayError m)

/-- Outcome of processing the incoming frames of one relay
(upload.ts lines 990-1033).  The first `OK` frame with third element `true`
resolves the publish as accepted; the first `OK` frame with third element
`false` and a fourth element present resolves it as rejected; every other
frame is ignored.  An exhausted stream is the 5 s timeout.  The event id
carried by an `OK` frame is never consulted by the source. -/
def processFrames : List Frame → RelayOutcome
  | [] => RelayOutcome.timedOut
  | Frame.ok _ true _ :: _ => RelayOutcome.accepted
  | Frame.ok _ false (some m) :: _ => classifyRejection m
  | Frame.ok _ false none :: rest => processFrames rest
  | Frame.other :: rest => processFrames rest

/-- For comparison with `processFrames` only, this follows the specification's
words (section 4.3: "Messages not addressed to R.id are ignored"): an `OK`
frame whose id differs from the published record's id is skipped. -/
def specProcessFrames (rid : String) : List Frame → RelayOutcome
  | [] => RelayOutcome.timedOut
  | Frame.ok eid true _ :: rest =>
      if eid = rid then RelayOutcome.accepted else specProcessFrames rid rest
  | Frame.ok eid false (some m) :: rest =>
      if eid = rid then classifyRejection m else specProcessFrames rid rest
  | Frame.ok _ false none :: rest => specProcessFrames rid rest
  | Frame.other :: rest => specProcessFrames rid rest

/-- Behaviour of one relay endpoint during a publish: either the connection
attempt fails (the `onerror` handler or the surrounding `catch`), or the
connection opens and the relay sends some frames. -/
inductive RelayBehavior
  | connectFail (detail : String)
  | frames (fs : List Frame)
deriving DecidableEq, Repr

/-- The collected outcome for one relay. -/
def relayOutcome : RelayBehavior → RelayOutcome
  | RelayBehavior.connectFail d => RelayOutcome.connectError d
  | RelayBehavior.frames fs => processFrames fs

/-- One entry of the message collector (src/lib/message-collector.ts):
`addRelayRejection` and `addConnectionError`, both keyed by relay URL. -/
inductive CollectorEntry
  | relayRejection (relay : String) (msg : String)
  | connectionError (relay : String) (msg : String)
deriving DecidableEq, Repr

/-- The relay URL a collector entry is keyed by. -/
def CollectorEntry.relay : CollectorEntry → String
  | CollectorEntry.relayRejection r _ => r
  | CollectorEntry.connectionError r _ => r

/-- Collector entries recorded for one relay during a publish
(upload.ts lines 1004-1016, 1026-1033, 1036-1043, 1054-1060). -/
def relayEntries (url : String) (b : RelayBehavior) : List CollectorEntry :=
  match relayOutcome b with
  | RelayOutcome.accepted => []
  | RelayOutcome.rateLimited m => [CollectorEntry.relayRejection url ("Rate limited: " ++ m)]
  | RelayOutcome.rejected m => [CollectorEntry.relayRejection url m]
  | RelayOutcome.timedOut => [CollectorEntry.connectionError url "Timeout waiting for response"]
  | RelayOutcome.connectError d => [CollectorEntry.connectionError url d]

/-- Fan-out publish of one signed event (upload.ts `publishToRelays`).  Each
relay of the list is paired with its behaviour; the result is the returned
boolean (`successCount > 0`) together with the message-collector entries.
The event argument mirrors the source signature; the source never reads its
fields while deciding outcomes. -/
def publishToRelays (event : NostrEvent) (rs : List (String × RelayBehavior)) :
    Bool × List CollectorEntry :=
  let _ := event
  (rs.any (fun p => relayOutcome p.2 == RelayOutcome.accepted),
   rs.flatMap (fun p => relayEntries p.1 p.2))

/-! ## Serialization helpers (`btoa(JSON.stringify(event))`, upload.ts line 817) -/

/-- The base64 alphabet. -/
def base64Table : String :=
  "ABCDEFGHIJKLMNOPQRSTUVWXYZabcdefghijklmnopqrstuvwxyz0123456789+/"

/-- Digit of the base64 alphabet. -/
def base64Digit (n : Nat) : Char := base64Table.data.getD n 'A'

/-- Standard base64 of a byte sequence, with padding, three bytes at a time. -/
def base64Groups : List Nat → String
  | [] => ""
  | [b1] => String.mk [base64Digit (b1 / 4), base64Digit (b1 % 4 * 16), '=', '=']
  | [b1, b2] =>
      String.mk [base64Digit (b1 / 4), base64Digit (b1 % 4 * 16 + b2 / 16),
                 base64Digit (b2 % 16 * 4), '=']
  | b1 :: b2 :: b3 :: rest =>
      String.mk [base64Digit (b1 / 4), base64Digit (b1 % 4 * 16 + b2 / 16),
                 base64Digit (b2 % 16 * 4 + b3 / 64), base64Digit (b3 % 64)]
        ++ base64Groups rest

/-- JavaScript `btoa` applied to the UTF-8 bytes of a string. -/
def base64encode (s : String) : String :=
  base64Groups (s.toUTF8.toList.map UInt8.toNat)

/-- Digit of the lowercase hexadecimal alphabet. -/
def hexDigitChar (n : Nat) : Char := "0123456789abcdef".data.getD n '0'

/-- JSON string escaping of one character, as performed by `JSON.stringify`. -/
def jsonEscapeChar (c : Char) : String :=
  if c = '"' then "\\\""
  else if c = '\\' then "\\\\"
  else if c = '\x08' then "\\b"
  else if c = '\x0c' then "\\f"
  else if c = '\n' then "\\n"
  else if c = '\r' then "\\r"
  else if c = '\t' then "\\t"
  else if c.toNat < 32 then
    "\\u00" ++ String.mk [hexDigitChar (c.toNat / 16), hexDigitChar (c.toNat % 16)]
  else String.mk [c]

/-- A JSON string literal. -/
def jsonString (s : String) : String :=
  "\"" ++ s.data.foldl (fun acc c => acc ++ jsonEscapeChar c) "" ++ "\""

/-- A JSON array of string literals. -/
def jsonStringArray (xs : List String) : String :=
  "[" ++ String.intercalate "," (xs.map jsonString) ++ "]"

/-- A JSON array of arrays of string literals (a tag list). -/
def jsonTagArray (tags : List (List String)) : String :=
  "[" ++ String.intercalate "," (tags.map jsonStringArray) ++ "]"

/-- Modelled from the spec: `JSON.stringify` of a signed record.  The signer
that builds the record object lives outside the included sources, so the key
order is taken from the record's field list (id, pubkey, created_at, kind,
tags, content, sig); the claims below depend only on this being a JSON
serialization of the full signed record. -/
def jsonEvent (e : NostrEvent) : String :=
  "\x7b\"id\":" ++ jsonString e.id ++
  ",\"pubkey\":" ++ jsonString e.pubkey ++
  ",\"created_at\":" ++ toString e.created_at ++
  ",\"kind\":" ++ toString e.kind ++
  ",\"tags\":" ++ jsonTagArray e.tags ++
  ",\"content\":" ++ jsonString e.content ++
  ",\"sig\":" ++ jsonString e.sig ++ "\x7d"

/-! ## File entries and the differ -/

/-- A file entry as `upload.ts` consumes it: logical path, optional content
hash, and (for remote entries) the source announcement record. -/
structure FileEntry where
  path : String
  sha256 : Option String
  event : Option NostrEvent
deriving DecidableEq, Repr

/-- The three output sequences of the differ. -/
structure FileDiff where
  toTransfer : List FileEntry
  existing : List FileEntry
  toDelete : List FileEntry
deriving DecidableEq, Repr

/-- Modelled from the spec: `compareFiles` (src/lib/files.ts, not included in
the sources) computes the diff by the membership rule of spec section 3: a
local file is `existing` iff a remote entry with the same path and hash
exists, otherwise it is `toTransfer`; a remote entry is `toDelete` iff no
local file has its path. -/
def compareFiles (localFiles remoteFiles : List FileEntry) : FileDiff :=
  { toTransfer := localFiles.filter (fun f =>
      !(remoteFiles.any (fun r => r.path == f.path && r.sha256 == f.sha256)))
    existing := localFiles.filter (fun f =>
      remoteFiles.any (fun r => r.path == f.path && r.sha256 == f.sha256))
    toDelete := remoteFiles.filter (fun r =>
      !(localFiles.any (fun f => f.path == r.path))) }

/-! ## Purge (upload.ts lines 761-851) -/

/-- The kind-5 deletion record template built for one to-delete entry
(upload.ts lines 783-791); the expiration tag is 120 seconds
(`60*2`) after the creation time. -/
def deletionTemplate (path eventId : String) (now : Nat) : NostrEventTemplate :=
  { kind := 5
    created_at := now
    tags := [["e", eventId], ["expiration", toString (now + 120)]]
    content := "nsyte: delete file event: " ++ path }

/-- The kind-24242 authorization template built for one server DELETE
(upload.ts lines 804-813). -/
def deleteAuthTemplate (sha256 path : String) (now : Nat) : NostrEventTemplate :=
  { kind := 24242
    created_at := now
    tags := [["t", "delete"], ["x", sha256], ["expiration", toString (now + 120)]]
    content := "nsyte: delete file: " ++ sha256 ++ " | " ++ path }

/-- Server URL normalization (upload.ts line 801): ensure a trailing slash. -/
def ensureTrailingSlash (server : String) : String :=
  if server.endsWith "/" then server else server ++ "/"

/-- An authenticated DELETE request as assembled by the purge loop. -/
structure DeleteRequest where
  url : String
  authHeader : String
  authEvent : NostrEvent
deriving DecidableEq, Repr

/-- Assembly of one authenticated DELETE (upload.ts lines 801-824): the target
URL is the normalized server URL followed by the hash, and the Authorization
header is `Nostr ` followed by base64 of the JSON of the signed kind-24242
record. -/
def buildDeleteRequest (signer : SignerModel) (server sha256 path : String) (now : Nat) :
    DeleteRequest :=
  let auth := signer.signEvent (deleteAuthTemplate sha256 path now)
  { url := ensureTrailingSlash server ++ sha256
    authHeader := "Nostr " ++ base64encode (jsonEvent auth)
    authEvent := auth }

/-- One observable action of the purge loop, in program order. -/
inductive PurgeAction
  | publishDeletion (ev : NostrEvent)
  | serverDelete (server : String) (sha256 : String) (req : DeleteRequest)
deriving DecidableEq, Repr

/-- Guard of the purge loop (upload.ts line 770): an entry without its source
record or without its hash is skipped. -/
def entryValid (f : FileEntry) : Bool := f.event.isSome && f.sha256.isSome

/-- Actions the purge loop performs for one to-delete entry (upload.ts lines
768-845): nothing for an invalid entry; otherwise the deletion record is
signed and published, then one authenticated DELETE is sent per server, in
server-list order. -/
def purgeEntryActions (signer : SignerModel) (servers : List String) (now : Nat)
    (f : FileEntry) : List PurgeAction :=
  match f.event, f.sha256 with
  | some src, some h =>
      PurgeAction.publishDeletion (signer.signEvent (deletionTemplate f.path src.id now))
        :: servers.map (fun s => PurgeAction.serverDelete s h (buildDeleteRequest signer s h f.path now))
  | _, _ => []

/-- The full action trace of the purge loop over the to-delete list. -/
def purgeTrace (signer : SignerModel) (servers : List String) (now : Nat) :
    List FileEntry → List PurgeAction
  | [] => []
  | f :: rest =>
      purgeEntryActions signer servers now f ++ purgeTrace signer servers now rest

/-- The purge loop with its counters (upload.ts `completed` and `failed`):
an invalid entry increments `failed` and contributes no actions; a valid
entry increments `completed` and contributes its actions. -/
def purgeRun (signer : SignerModel) (servers : List String) (now : Nat) :
    List FileEntry → Nat × Nat × List PurgeAction
  | [] => (0, 0, [])
  | f :: rest =>
      let r := purgeRun signer servers now rest
      if entryValid f then
        (r.1 + 1, r.2.1, purgeEntryActions signer servers now f ++ r.2.2)
      else
        (r.1, r.2.1 + 1, r.2.2)

/-! ## Orchestrator gating and exit codes (upload.ts `uploadCommand`)

The environment record carries the command options together with the
responses of the outside world (walk results, fetched remote set, HEAD
probe answers, the interactive confirmation, per-file load and upload
results).  `orchestrate` reproduces the command's control flow from the
configuration check to the purge step; its result records the exit code
(a normal return is exit code 0), the file set handed to the uploader,
the per-file upload results, and the purge action trace. -/

/-- Inputs and environment responses of one `uploadCommand` run. -/
structure OrchestratorEnv where
  configPresent : Bool
  authAvailable : Bool
  nonInteractive : Bool
  force : Bool
  purge : Bool
  localFiles : List FileEntry
  ignoredCount : Nat
  remoteFiles : List FileEntry
  servers : List String
  headOk : String → Bool
  promptAnswer : Bool
  loadOk : String → Bool
  uploadSuccess : String → Bool
  signer : SignerModel
  now : Nat

/-- Result of one `uploadCommand` run. -/
structure RunOutcome where
  exitCode : Nat
  uploadSet : List FileEntry
  results : List (String × Bool)
  purged : List PurgeAction
deriving Repr

/-- Whether the first local file carries a hash (upload.ts lines 359-361:
the HEAD probe runs only when `localFiles[0]` exists and has `sha256`). -/
def firstHasHash (l : List FileEntry) : Bool :=
  match l.head? with
  | some f => f.sha256.isSome
  | none => false

/-- The `alreadyExists` flag (upload.ts lines 357-392): the remote set came
back empty, the first local file has a hash, and a HEAD probe of that hash on
some configured server succeeded (the loop stops at the first success). -/
def ambiguousFlag (env : OrchestratorEnv) : Bool :=
  env.remoteFiles.isEmpty && firstHasHash env.localFiles && env.servers.any env.headOk

/-- Whether `fileComparisonMessage` is non-empty at line 414: it is set in
interactive mode whenever the probe succeeded (line 376) and in both modes
when additionally `--force` is absent (line 388). -/
def msgSetFlag (env : OrchestratorEnv) : Bool :=
  ambiguousFlag env && (!env.nonInteractive || !env.force)

/-- The gate condition of upload.ts line 414: nothing to transfer and nothing
to purge, or an ambiguity warning without `--force`. -/
def gateFlag (env : OrchestratorEnv) (diff : FileDiff) : Bool :=
  (diff.toTransfer.isEmpty && (!env.purge || diff.toDelete.isEmpty))
    || (env.remoteFiles.isEmpty && msgSetFlag env && !env.force)

/-- The purge actions of a run (upload.ts line 761: the purge loop runs only
when `--purge` is set and the to-delete list is non-empty). -/
def purgedOf (env : OrchestratorEnv) (diff : FileDiff) : List PurgeAction :=
  if env.purge && !diff.toDelete.isEmpty then
    (purgeRun env.signer env.servers env.now diff.toDelete).2.2
  else []

/-- The tail of the run once the upload set is fixed (upload.ts lines
479-851): load the file data (a file that fails to load is dropped and the
run aborts with exit 1 when the set was non-empty but nothing loaded), run
the uploader over the loaded files, then run the purge loop.  Upload
failures do not change the exit code. -/
def finishRun (env : OrchestratorEnv) (uploadSet : List FileEntry) (diff : FileDiff) :
    RunOutcome :=
  if uploadSet.isEmpty then
    { exitCode := 0, uploadSet := uploadSet, results := [], purged := purgedOf env diff }
  else if (uploadSet.filter (fun f => env.loadOk f.path)).isEmpty then
    { exitCode := 1, uploadSet := uploadSet, results := [], purged := [] }
  else
    { exitCode := 0, uploadSet := uploadSet,
      results := (uploadSet.filter (fun f => env.loadOk f.path)).map
        (fun f => (f.path, env.uploadSuccess f.path)),
      purged := purgedOf env diff }

/-- The branch on the gate condition (upload.ts lines 414-477): when it
holds, interactive runs ask for confirmation and proceed with transfer plus
existing files on a yes, non-interactive runs proceed that way only under
`--force`, and every other case exits 0; when it does not hold the run
proceeds with the transfer set. -/
def gatePhase (env : OrchestratorEnv) (diff : FileDiff) : RunOutcome :=
  if gateFlag env diff then
    if !env.nonInteractive then
      if env.promptAnswer then finishRun env (diff.toTransfer ++ diff.existing) diff
      else { exitCode := 0, uploadSet := [], results := [], purged := [] }
    else if env.force then finishRun env (diff.toTransfer ++ diff.existing) diff
    else { exitCode := 0, uploadSet := [], results := [], purged := [] }
  else finishRun env diff.toTransfer diff

/-- Control flow of `uploadCommand` from the configuration check to the purge
step (upload.ts lines 92-851): missing configuration or missing signing
material exits with code 1; an empty walk exits 0 when files were ignored and
1 otherwise; then the diff is computed and handed to the gate branch. -/
def orchestrate (env : OrchestratorEnv) : RunOutcome :=
  if env.configPresent then
    if env.authAvailable then
      if env.localFiles.isEmpty then
        if env.ignoredCount != 0 then
          { exitCode := 0, uploadSet := [], results := [], purged := [] }
        else
          { exitCode := 1, uploadSet := [], results := [], purged := [] }
      else gatePhase env (compareFiles env.localFiles env.remoteFiles)
    else { exitCode := 1, uploadSet := [], results := [], purged := [] }
  else { exitCode := 1, uploadSet := [], results := [], purged := [] }

/-! ## Concrete instances used by the closed theorems below -/

/-- A concrete signer instance. -/
def sigZero : SignerModel :=
  { pubkey := "pk0", idOf := fun _ => "id0", sigOf := fun _ => "sig0" }

/-- A concrete announcement record for path `/a`. -/
def evA : NostrEvent :=
  { id := "evA", pubkey := "pk0", created_at := 10, kind := 34128,
    tags := [["d", "/a"], ["x", "ha"]], content := "", sig := "sA" }

/-- A concrete announcement record for path `/b`. -/
def evB : NostrEvent :=
  { id := "evB", pubkey := "pk0", created_at := 10, kind := 34128,
    tags := [["d", "/b"], ["x", "hb"]], content := "", sig := "sB" }

/-- A local file entry. -/
def fileLocalA : FileEntry := { path := "/a", sha256 := some "ha", event := none }

/-- A remote file entry matching `fileLocalA`. -/
def fileRemoteA : FileEntry := { path := "/a", sha256 := some "ha", event := some evA }

/-- A remote file entry with no local counterpart. -/
def fileRemoteB : FileEntry := { path := "/b", sha256 := some "hb", event := some evB }

/-- A remote file entry lacking its hash. -/
def fileBad : FileEntry := { path := "/bad", sha256 := none, event := some evB }

/-- The DELETE request the purge loop builds for `fileRemoteB` on server `s/`. -/
def reqB1 : DeleteRequest := buildDeleteRequest sigZero "s/" "hb" "/b" 0

/-- A base run environment: configured, authenticated, non-interactive, one
local file, empty remote set. -/
def envBase : OrchestratorEnv :=
  { configPresent := true, authAvailable := true, nonInteractive := true,
    force := false, purge := false, localFiles := [fileLocalA], ignoredCount := 0,
    remoteFiles := [], servers := ["https://s1"], headOk := fun _ => false,
    promptAnswer := false, loadOk := fun _ => true, uploadSuccess := fun _ => true,
    signer := sigZero, now := 0 }

/-- Ambiguity scenario: empty remote set, HEAD probe succeeds, non-interactive. -/
def envAmbig : OrchestratorEnv := { envBase with headOk := fun _ => true }

/-- Ambiguity scenario in interactive mode with the confirmation answered yes. -/
def envAmbigPrompt : OrchestratorEnv :=
  { envBase with headOk := fun _ => true, nonInteractive := false, promptAnswer := true }

/-- No-op scenario: the remote set matches the local set, non-interactive. -/
def envNoop : OrchestratorEnv := { envBase with remoteFiles := [fileRemoteA] }

/-- No-op scenario in interactive mode with the confirmation answered yes. -/
def envNoopPrompt : OrchestratorEnv :=
  { envBase with remoteFiles := [fileRemoteA], nonInteractive := false, promptAnswer := true }

/-- A run whose only upload fails. -/
def envAllFail : OrchestratorEnv :=
  { envBase with servers := [], uploadSuccess := fun _ => false }

/-- A run without project configuration. -/
def envNoConfig : OrchestratorEnv := { envBase with configPresent := false }

/-! ## Theorems: relay publish (claims C1, C4, C5, C9) -/

/-- Helper: a relay whose outcome is not accepted leaves a collector entry
keyed by its URL. -/
theorem relayEntries_key (url : String) (b : RelayBehavior)
    (hne : relayOutcome b ≠ RelayOutcome.accepted) :
    ∃ e ∈ relayEntries url b, e.relay = url := by
  rcases hout : relayOutcome b with _ | m | m | _ | d <;>
    simp [relayEntries, hout, CollectorEntry.relay]
  exact hne hout

/-- C1: `publishToRelays` returns true exactly when at least one relay's
outcome is `accepted` (an `OK` frame with third element `true`), the model
collecting one outcome per listed relay with no retry; and every relay whose
outcome is not `accepted` has a message-collector entry keyed by its URL. -/
theorem publishToRelays_accepted_iff (event : NostrEvent)
    (rs : List (String × RelayBehavior)) :
    ((publishToRelays event rs).1 = true ↔
      ∃ p ∈ rs, relayOutcome p.2 = RelayOutcome.accepted)
    ∧ ∀ p ∈ rs, relayOutcome p.2 ≠ RelayOutcome.accepted →
        ∃ e ∈ (publishToRelays event rs).2, e.relay = p.1 := by
  constructor
  · simp [publishToRelays, List.any_eq_true, beq_iff_eq]
  · intro p hp hne
    obtain ⟨e, he, hkey⟩ := relayEntries_key p.1 p.2 hne
    exact ⟨e, List.mem_flatMap.mpr ⟨p, hp, he⟩, hkey⟩

/-- Witness for C1 at a concrete input: one accepting relay makes the
publish succeed. -/
theorem publishToRelays_accepted_iff_witness :
    (publishToRelays evB
      [("wss://r1", RelayBehavior.frames [Frame.ok "id1" true none])]).1 = true :=
  (publishToRelays_accepted_iff evB
      [("wss://r1", RelayBehavior.frames [Frame.ok "id1" true none])]).1.mpr
    ⟨("wss://r1", RelayBehavior.frames [Frame.ok "id1" true none]),
      List.mem_singleton.mpr rfl, rfl⟩

/-- C4 counterexample: an `OK` frame carrying an id different from the
published record's id does determine the outcome in the source
(`processFrames`), while the spec-following variant ignores it. -/
theorem processFrames_foreign_ok_cex :
    processFrames [Frame.ok "ffff" true none] = RelayOutcome.accepted
    ∧ specProcessFrames "aaaa" [Frame.ok "ffff" true none] = RelayOutcome.timedOut := by
  constructor
  · rfl
  · decide

/-- C4 (amended): the relay client never inspects the id element of an `OK`
frame — the outcome is invariant under changing it and under changing the
published event — any `OK` frame determines the outcome, and only the first
determining frame counts (later frames are never reached). -/
theorem processFrames_ignores_event_id :
    (∀ e1 e2 acc m rest, processFrames (Frame.ok e1 acc m :: rest)
        = processFrames (Frame.ok e2 acc m :: rest))
    ∧ (∀ ev1 ev2 rs, publishToRelays ev1 rs = publishToRelays ev2 rs)
    ∧ (∀ e m rest, processFrames (Frame.ok e true m :: rest) = RelayOutcome.accepted)
    ∧ (∀ e m rest, processFrames (Frame.ok e false (some m) :: rest) = classifyRejection m) := by
  refine ⟨?_, fun ev1 ev2 rs => rfl, fun e m rest => rfl, fun e m rest => rfl⟩
  intro e1 e2 acc m rest
  cases acc
  · cases m <;> rfl
  · rfl

/-- C5 counterexample: for the empty rejection message the recorded reason is
the default `Unknown relay error`, not the message itself. -/
theorem classifyRejection_empty_msg_cex :
    classifyRejection "" = RelayOutcome.rejected "Unknown relay error"
    ∧ RelayOutcome.rejected "Unknown relay error" ≠ RelayOutcome.rejected "" := by
  constructor
  · decide
  · decide

/-- C5 (amended): an `["OK", id, false, msg]` frame resolves the relay's
outcome through `classifyRejection`: the message (defaulted to
`Unknown relay error` when empty, and kept verbatim otherwise) is classified
as rate-limited when it contains `rate-limit` or `noting too much` and as a
plain rejection otherwise, and the classification is recorded against the
relay's URL in the message collector. -/
theorem okFalse_classification (url e m : String) (rest : List Frame) :
    relayOutcome (RelayBehavior.frames (Frame.ok e false (some m) :: rest))
      = classifyRejection m
    ∧ classifyRejection m
      = (if isRateLimitMsg (defaultedRelayError m) then
           RelayOutcome.rateLimited (defaultedRelayError m)
         else RelayOutcome.rejected (defaultedRelayError m))
    ∧ (m ≠ "" → defaultedRelayError m = m)
    ∧ relayEntries url (RelayBehavior.frames (Frame.ok e false (some m) :: rest))
      = [CollectorEntry.relayRejection url
          (if isRateLimitMsg (defaultedRelayError m) then
             "Rate limited: " ++ defaultedRelayError m
           else defaultedRelayError m)] := by
  refine ⟨rfl, rfl, fun h => by simp [defaultedRelayError, h], ?_⟩
  cases hb : isRateLimitMsg (defaultedRelayError m) <;>
    simp [relayEntries, relayOutcome, processFrames, classifyRejection, hb]

/-- Witness for C5 at a concrete input: a rate-limit message keeps its text
and is recorded as a rate-limited rejection for the relay. -/
theorem okFalse_classification_witness :
    defaultedRelayError "rate-limit: slow down" = "rate-limit: slow down"
    ∧ relayEntries "wss://r1"
        (RelayBehavior.frames [Frame.ok "e1" false (some "rate-limit: slow down")])
      = [CollectorEntry.relayRejection "wss://r1"
          (if isRateLimitMsg (defaultedRelayError "rate-limit: slow down") then
             "Rate limited: " ++ defaultedRelayError "rate-limit: slow down"
           else defaultedRelayError "rate-limit: slow down")] :=
  ⟨(okFalse_classification "wss://r1" "e1" "rate-limit: slow down" []).2.2.1 (by decide),
   (okFalse_classification "wss://r1" "e1" "rate-limit: slow down" []).2.2.2⟩

/-- C9: the publish fan-out is a total function that cannot throw: the empty
relay list returns false with no collector entries, a connection failure or a
stream of ignored or unparsable frames is never an acceptance, and when no
relay accepts the returned boolean is false. -/
theorem publishToRelays_failure_behavior (event : NostrEvent) :
    publishToRelays event [] = (false, [])
    ∧ (∀ d, relayOutcome (RelayBehavior.connectFail d) ≠ RelayOutcome.accepted)
    ∧ (∀ fs, (∀ fr ∈ fs, fr = Frame.other) → processFrames fs = RelayOutcome.timedOut)
    ∧ (∀ rs, (∀ p ∈ rs, relayOutcome p.2 ≠ RelayOutcome.accepted) →
        (publishToRelays event rs).1 = false) := by
  refine ⟨rfl, fun d => by simp [relayOutcome], ?_, ?_⟩
  · intro fs hall
    induction fs with
    | nil => rfl
    | cons fr rest ih =>
        have h := hall fr (List.mem_cons_self fr rest)
        subst h
        exact (ih fun x hx => hall x (List.mem_cons_of_mem _ hx))
  · intro rs hall
    rw [← Bool.not_eq_true]
    intro hany
    obtain ⟨p, hp, hacc⟩ := List.any_eq_true.mp hany
    exact hall p hp (beq_iff_eq.mp hacc)

/-- Witness for C9 at a concrete input: a failing connection and a relay
sending only unparsable frames yield a false result. -/
theorem publishToRelays_failure_behavior_witness :
    (publishToRelays evB
      [("wss://r1", RelayBehavior.connectFail "refused"),
       ("wss://r2", RelayBehavior.frames [Frame.other])]).1 = false :=
  (publishToRelays_failure_behavior evB).2.2.2 _ (by decide)

/-! ## Theorems: purge (claims C3, C8, C10) -/

/-- C3: in the purge trace, every authenticated DELETE for a hash is preceded
by the publication of the signed kind-5 deletion record referencing the
source announcement record of a to-delete entry carrying that hash. -/
theorem purge_deletion_precedes_server_delete (signer : SignerModel) (servers : List String)
    (now : Nat) (files : List FileEntry) (i : Nat) (s h : String) (req : DeleteRequest)
    (hi : (purgeTrace signer servers now files)[i]? = some (PurgeAction.serverDelete s h req)) :
    ∃ j, j < i ∧ ∃ f src, f ∈ files ∧ f.event = some src ∧ f.sha256 = some h ∧
      (purgeTrace signer servers now files)[j]? =
        some (PurgeAction.publishDeletion
          (signer.signEvent (deletionTemplate f.path src.id now))) := by
  induction files generalizing i with
  | nil => simp [purgeTrace] at hi
  | cons f rest ih =>
    rcases hfe : f.event with _ | src
    · have hblock : purgeEntryActions signer servers now f = [] := by
        simp [purgeEntryActions, hfe]
      rw [purgeTrace, hblock, List.nil_append] at hi ⊢
      obtain ⟨j, hj, f', src', hmem, h1, h2, h3⟩ := ih i hi
      exact ⟨j, hj, f', src', List.mem_cons_of_mem _ hmem, h1, h2, h3⟩
    · rcases hfs : f.sha256 with _ | hsh
      · have hblock : purgeEntryActions signer servers now f = [] := by
          simp [purgeEntryActions, hfe, hfs]
        rw [purgeTrace, hblock, List.nil_append] at hi ⊢
        obtain ⟨j, hj, f', src', hmem, h1, h2, h3⟩ := ih i hi
        exact ⟨j, hj, f', src', List.mem_cons_of_mem _ hmem, h1, h2, h3⟩
      · have hblock : purgeEntryActions signer servers now f =
            PurgeAction.publishDeletion (signer.signEvent (deletionTemplate f.path src.id now))
              :: servers.map (fun sv =>
                   PurgeAction.serverDelete sv hsh (buildDeleteRequest signer sv hsh f.path now)) := by
          simp [purgeEntryActions, hfe, hfs]
        rw [purgeTrace, hblock, List.cons_append] at hi ⊢
        cases i with
        | zero => simp at hi
        | succ k =>
          rw [List.getElem?_cons_succ, List.getElem?_append] at hi
          by_cases hk : k < (servers.map (fun sv =>
              PurgeAction.serverDelete sv hsh (buildDeleteRequest signer sv hsh f.path now))).length
          · rw [if_pos hk] at hi
            rw [List.getElem?_map] at hi
            rcases hsv : servers[k]? with _ | sv
            · rw [hsv] at hi; simp at hi
            · rw [hsv] at hi
              simp only [Option.map_some', Option.some.injEq,
                PurgeAction.serverDelete.injEq] at hi
              obtain ⟨hs, hh, hreq⟩ := hi
              refine ⟨0, Nat.succ_pos k, f, src, List.mem_cons_self f rest, hfe, ?_,
                by rw [List.getElem?_cons_zero]⟩
              rw [hfs, hh]
          · rw [if_neg hk] at hi
            push_neg at hk
            obtain ⟨j, hj, f', src', hmem, h1, h2, h3⟩ := ih _ hi
            refine ⟨j + (servers.map (fun sv =>
                PurgeAction.serverDelete sv hsh (buildDeleteRequest signer sv hsh f.path now))).length + 1,
              by omega, f', src', List.mem_cons_of_mem _ hmem, h1, h2, ?_⟩
            rw [List.getElem?_cons_succ, List.getElem?_append_right (Nat.le_add_left _ _),
              Nat.add_sub_cancel]
            exact h3

/-- Witness for C3 at a concrete input: the single server DELETE for
`fileRemoteB` is preceded by the publication of its deletion record. -/
theorem purge_deletion_precedes_server_delete_witness :
    ∃ j, j < 1 ∧ ∃ f src, f ∈ [fileRemoteB] ∧ f.event = some src ∧ f.sha256 = some "hb" ∧
      (purgeTrace sigZero ["s/"] 0 [fileRemoteB])[j]? =
        some (PurgeAction.publishDeletion
          (sigZero.signEvent (deletionTemplate f.path src.id 0))) :=
  purge_deletion_precedes_server_delete sigZero ["s/"] 0 [fileRemoteB] 1 "s/" "hb" reqB1 rfl

/-- C8: every authenticated DELETE in the purge trace targets the normalized
server URL followed by the content hash, carries the header
`Nostr <base64(json(authRecord))>` for its freshly signed kind-24242
authorization record, and that record is created at the loop's clock with
exactly the tags `t=delete`, `x=<hash>` and an expiration 120 seconds after
the signing time. -/
theorem purge_delete_request_format (signer : SignerModel) (servers : List String)
    (now : Nat) (files : List FileEntry) (s h : String) (req : DeleteRequest)
    (hmem : PurgeAction.serverDelete s h req ∈ purgeTrace signer servers now files) :
    s ∈ servers
    ∧ req.url = ensureTrailingSlash s ++ h
    ∧ req.authHeader = "Nostr " ++ base64encode (jsonEvent req.authEvent)
    ∧ req.authEvent.kind = 24242
    ∧ req.authEvent.created_at = now
    ∧ ∃ p, req.authEvent.tags
          = [["t", "delete"], ["x", h], ["expiration", toString (now + 120)]]
        ∧ req.authEvent.content = "nsyte: delete file: " ++ h ++ " | " ++ p := by
  induction files with
  | nil => simp [purgeTrace] at hmem
  | cons f rest ih =>
    rw [purgeTrace, List.mem_append] at hmem
    rcases hmem with hblk | htail
    · rcases hfe : f.event with _ | src
      · rw [show purgeEntryActions signer servers now f = [] from by
          simp [purgeEntryActions, hfe]] at hblk
        simp at hblk
      · rcases hfs : f.sha256 with _ | hsh
        · rw [show purgeEntryActions signer servers now f = [] from by
            simp [purgeEntryActions, hfe, hfs]] at hblk
          simp at hblk
        · rw [show purgeEntryActions signer servers now f =
              PurgeAction.publishDeletion (signer.signEvent (deletionTemplate f.path src.id now))
                :: servers.map (fun sv =>
                     PurgeAction.serverDelete sv hsh (buildDeleteRequest signer sv hsh f.path now))
              from by simp [purgeEntryActions, hfe, hfs]] at hblk
          rcases List.mem_cons.mp hblk with heq | hmap
          · exact absurd heq (by simp)
          · obtain ⟨sv, hsv, heq⟩ := List.mem_map.mp hmap
            rw [PurgeAction.serverDelete.injEq] at heq
            obtain ⟨hs, hh, hreq⟩ := heq
            subst hs
            subst hh
            subst hreq
            exact ⟨hsv, rfl, rfl, rfl, rfl, f.path, rfl, rfl⟩
    · exact ih htail

/-- Witness for C8 at a concrete input: the DELETE for `fileRemoteB` on
server `s/` has the required URL, header and authorization record shape. -/
theorem purge_delete_request_format_witness :
    "s/" ∈ ["s/"]
    ∧ reqB1.url = ensureTrailingSlash "s/" ++ "hb"
    ∧ reqB1.authHeader = "Nostr " ++ base64encode (jsonEvent reqB1.authEvent)
    ∧ reqB1.authEvent.kind = 24242
    ∧ reqB1.authEvent.created_at = 0
    ∧ ∃ p, reqB1.authEvent.tags
          = [["t", "delete"], ["x", "hb"], ["expiration", toString (0 + 120)]]
        ∧ reqB1.authEvent.content = "nsyte: delete file: " ++ "hb" ++ " | " ++ p :=
  purge_delete_request_format sigZero ["s/"] 0 [fileRemoteB] "s/" "hb" reqB1
    (List.Mem.tail _ (List.Mem.head _))

/-- C10: a to-delete entry lacking its source record or its hash is skipped:
relative to the same run without that entry, the completed count and the
action trace are unchanged (so no deletion record is published and no server
DELETE is issued for it, and later entries are still processed), and the
failed count increases by one. -/
theorem purge_skips_invalid_entry (signer : SignerModel) (servers : List String) (now : Nat)
    (pre post : List FileEntry) (bad : FileEntry)
    (hbad : bad.event = none ∨ bad.sha256 = none) :
    purgeRun signer servers now (pre ++ bad :: post)
      = ((purgeRun signer servers now (pre ++ post)).1,
         (purgeRun signer servers now (pre ++ post)).2.1 + 1,
         (purgeRun signer servers now (pre ++ post)).2.2) := by
  have hval : entryValid bad = false := by
    rcases hbad with hb | hb <;> simp [entryValid, hb]
  induction pre with
  | nil =>
      simp only [List.nil_append, purgeRun, hval]
      simp
  | cons f rest ih =>
      simp only [List.cons_append, purgeRun, List.append_eq]
      rw [ih]
      cases hf : entryValid f <;> simp [hf]

/-- Witness for C10 at a concrete input: `fileBad` (no hash) is skipped and
counted as failed while `fileRemoteB` after it is still processed. -/
theorem purge_skips_invalid_entry_witness :
    purgeRun sigZero ["s/"] 0 ([] ++ fileBad :: [fileRemoteB])
      = ((purgeRun sigZero ["s/"] 0 ([] ++ [fileRemoteB])).1,
         (purgeRun sigZero ["s/"] 0 ([] ++ [fileRemoteB])).2.1 + 1,
         (purgeRun sigZero ["s/"] 0 ([] ++ [fileRemoteB])).2.2) :=
  purge_skips_invalid_entry sigZero ["s/"] 0 [] [fileRemoteB] fileBad (Or.inr rfl)

/-! ## Theorems: orchestrator gating and exit codes (claims C2, C6, C7) -/

/-- Helper: with an empty remote set the diff puts every local file in the
transfer set and deletes nothing. -/
theorem compareFiles_nil_remote (l : List FileEntry) :
    compareFiles l [] = { toTransfer := l, existing := [], toDelete := [] } := by
  simp [compareFiles]

/-- Helper: `finishRun` hands back the upload set it was given. -/
theorem finishRun_uploadSet (env : OrchestratorEnv) (u : List FileEntry) (d : FileDiff) :
    (finishRun env u d).uploadSet = u := by
  unfold finishRun
  split
  · rfl
  · split <;> rfl

/-- Helper: whenever `finishRun` produced upload results its exit code is 0. -/
theorem finishRun_results_exit (env : OrchestratorEnv) (u : List FileEntry) (d : FileDiff) :
    (finishRun env u d).results ≠ [] → (finishRun env u d).exitCode = 0 := by
  unfold finishRun
  split
  · intro h; rfl
  · split
    · intro h; exact absurd rfl h
    · intro h; rfl

/-- Helper: whenever the gate phase produced upload results its exit code is 0. -/
theorem gatePhase_results_exit (env : OrchestratorEnv) (d : FileDiff) :
    (gatePhase env d).results ≠ [] → (gatePhase env d).exitCode = 0 := by
  unfold gatePhase
  split
  · split
    · split
      · exact finishRun_results_exit env _ d
      · intro h; exact absurd rfl h
    · split
      · exact finishRun_results_exit env _ d
      · intro h; exact absurd rfl h
  · exact finishRun_results_exit env _ d

/-- Helper: whenever a run produced upload results its exit code is 0. -/
theorem orchestrate_results_exit (env : OrchestratorEnv) :
    (orchestrate env).results ≠ [] → (orchestrate env).exitCode = 0 := by
  unfold orchestrate
  split
  · split
    · split
      · split
        · intro h; rfl
        · intro h; exact absurd rfl h
      · exact gatePhase_results_exit env _
    · intro h; exact absurd rfl h
  · intro h; exact absurd rfl h

/-- Helper: the no-op exit of upload.ts lines 414-476 for a configured,
authenticated run with files on disk, nothing to transfer, nothing to delete
and no force flag, when the run is non-interactive or the confirmation is
declined. -/
theorem orchestrate_noop (env : OrchestratorEnv)
    (hc : env.configPresent = true) (ha : env.authAvailable = true)
    (hl : env.localFiles.isEmpty = false)
    (ht : (compareFiles env.localFiles env.remoteFiles).toTransfer = [])
    (hd : (compareFiles env.localFiles env.remoteFiles).toDelete = [])
    (hf : env.force = false)
    (hni : env.nonInteractive = true ∨ env.promptAnswer = false) :
    orchestrate env = { exitCode := 0, uploadSet := [], results := [], purged := [] } := by
  have hgate : gateFlag env (compareFiles env.localFiles env.remoteFiles) = true := by
    unfold gateFlag
    rw [ht, hd]
    simp
  rcases hni with h | h
  · simp [orchestrate, gatePhase, hc, ha, hl, hgate, hf, h]
  · cases hn : env.nonInteractive
    · simp [orchestrate, gatePhase, hc, ha, hl, hgate, hf, h, hn]
    · simp [orchestrate, gatePhase, hc, ha, hl, hgate, hf, hn]

/-- C6 (amended): when the computed to-upload and to-delete sets are empty
and the force flag is not set, a non-interactive run — or an interactive run
whose force-upload confirmation is declined — exits cleanly with code 0
without performing any blob upload, record publication or purge action.  (An
interactive run whose confirmation is answered yes proceeds to upload
instead.) -/
theorem noop_exits_cleanly (env : OrchestratorEnv)
    (hc : env.configPresent = true) (ha : env.authAvailable = true)
    (hl : env.localFiles.isEmpty = false)
    (ht : (compareFiles env.localFiles env.remoteFiles).toTransfer = [])
    (hd : (compareFiles env.localFiles env.remoteFiles).toDelete = [])
    (hf : env.force = false)
    (hni : env.nonInteractive = true ∨ env.promptAnswer = false) :
    orchestrate env = { exitCode := 0, uploadSet := [], results := [], purged := [] } :=
  orchestrate_noop env hc ha hl ht hd hf hni

/-- Witness for C6 at a concrete input: a non-interactive run whose remote
set matches its local set exits cleanly with nothing uploaded. -/
theorem noop_exits_cleanly_witness :
    orchestrate envNoop = { exitCode := 0, uploadSet := [], results := [], purged := [] } :=
  noop_exits_cleanly envNoop rfl rfl rfl rfl rfl rfl (Or.inl rfl)

/-- C6 counterexample: with empty to-upload and to-delete sets and no force
flag, an interactive run whose confirmation prompt is answered yes performs
uploads instead of exiting without them. -/
theorem noop_interactive_prompt_cex :
    (compareFiles envNoopPrompt.localFiles envNoopPrompt.remoteFiles).toTransfer = []
    ∧ (compareFiles envNoopPrompt.localFiles envNoopPrompt.remoteFiles).toDelete = []
    ∧ envNoopPrompt.force = false
    ∧ (orchestrate envNoopPrompt).results = [("/a", true)]
    ∧ (orchestrate envNoopPrompt).uploadSet = [fileLocalA] :=
  ⟨rfl, rfl, rfl, rfl, rfl⟩

/-- C2 (amended): when the remote fetch returned an empty set and a HEAD
probe of the first local file's hash succeeded on some configured server, a
non-interactive run without `--force` flags the ambiguity and exits with
code 0 performing no upload, while a run with `--force` proceeds with all
local files in the upload set.  (An interactive run lets the confirmation
prompt decide instead.) -/
theorem ambiguous_remote_requires_force (env : OrchestratorEnv)
    (hc : env.configPresent = true) (ha : env.authAvailable = true)
    (hl : env.localFiles.isEmpty = false)
    (hr : env.remoteFiles = [])
    (hh : firstHasHash env.localFiles = true)
    (hp : env.servers.any env.headOk = true) :
    (env.nonInteractive = true → env.force = false →
      msgSetFlag env = true
      ∧ orchestrate env = { exitCode := 0, uploadSet := [], results := [], purged := [] })
    ∧ (env.force = true → (orchestrate env).uploadSet = env.localFiles) := by
  have hamb : ambiguousFlag env = true := by
    simp [ambiguousFlag, hr, hh, hp]
  constructor
  · intro hn hf
    have hmsg : msgSetFlag env = true := by simp [msgSetFlag, hamb, hf]
    refine ⟨hmsg, ?_⟩
    have hgate : gateFlag env (compareFiles env.localFiles env.remoteFiles) = true := by
      simp [gateFlag, hr, hmsg, hf]
    simp [orchestrate, gatePhase, hc, ha, hl, hgate, hn, hf]
  · intro hf
    have hdiff : compareFiles env.localFiles env.remoteFiles
        = { toTransfer := env.localFiles, existing := [], toDelete := [] } := by
      rw [hr]; exact compareFiles_nil_remote _
    have hgate : gateFlag env (compareFiles env.localFiles env.remoteFiles) = false := by
      unfold gateFlag
      rw [hdiff]
      simp [hl, hf]
    rw [hdiff] at hgate
    simp [orchestrate, gatePhase, hc, ha, hl, hgate, hdiff, finishRun_uploadSet]

/-- Witness for C2 at a concrete input: the ambiguity scenario without
`--force` in a non-interactive run sets the warning and exits cleanly. -/
theorem ambiguous_remote_requires_force_witness :
    msgSetFlag envAmbig = true
    ∧ orchestrate envAmbig = { exitCode := 0, uploadSet := [], results := [], purged := [] } :=
  (ambiguous_remote_requires_force envAmbig rfl rfl rfl rfl rfl rfl).1 rfl rfl

/-- C2 counterexample: in the ambiguity scenario without `--force`, an
interactive run whose confirmation prompt is answered yes uploads all local
files instead of exiting without uploading. -/
theorem ambiguity_interactive_prompt_cex :
    envAmbigPrompt.force = false
    ∧ envAmbigPrompt.remoteFiles = []
    ∧ ambiguousFlag envAmbigPrompt = true
    ∧ (orchestrate envAmbigPrompt).uploadSet = [fileLocalA]
    ∧ (orchestrate envAmbigPrompt).results = [("/a", true)] :=
  ⟨rfl, rfl, rfl, rfl, rfl⟩

/-- C7 (amended): the orchestrator exits with code 1 when no project
configuration is found or when no private key or bunker is available for
signing, exits with code 0 in the non-interactive no-op case, and any run
that produced upload results exits 0 whatever those results are — in
particular a run whose uploads all failed still exits with code 0. -/
theorem exit_code_policy :
    (∀ env : OrchestratorEnv, env.configPresent = false → (orchestrate env).exitCode = 1)
    ∧ (∀ env : OrchestratorEnv, env.authAvailable = false → env.configPresent = true →
        (orchestrate env).exitCode = 1)
    ∧ (∀ env : OrchestratorEnv, env.configPresent = true → env.authAvailable = true →
        env.localFiles.isEmpty = false →
        (compareFiles env.localFiles env.remoteFiles).toTransfer = [] →
        (compareFiles env.localFiles env.remoteFiles).toDelete = [] →
        env.force = false → env.nonInteractive = true →
        (orchestrate env).exitCode = 0)
    ∧ (∀ env : OrchestratorEnv, (orchestrate env).results ≠ [] →
        (orchestrate env).exitCode = 0) := by
  refine ⟨?_, ?_, ?_, ?_⟩
  · intro env h
    simp [orchestrate, h]
  · intro env h hc
    simp [orchestrate, hc, h]
  · intro env hc ha hl ht hd hf hn
    rw [orchestrate_noop env hc ha hl ht hd hf (Or.inl hn)]
  · exact orchestrate_results_exit

/-- Witness for C7 at a concrete input: a run without project configuration
exits with code 1. -/
theorem exit_code_policy_witness :
    (orchestrate envNoConfig).exitCode = 1 :=
  exit_code_policy.1 envNoConfig rfl

/-- C7 counterexample: a run in which every upload failed still exits with
code 0, not 1. -/
theorem all_uploads_failed_exit_zero_cex :
    (orchestrate envAllFail).results = [("/a", false)]
    ∧ (orchestrate envAllFail).exitCode = 0 :=
  ⟨rfl, rfl⟩
